import Mathlib

/-!
Shallow embedding of `src/pylmstools/player.py` (class `LMSPlayer`).

Conventions of the embedding:
* Dynamically typed Python values flowing through the class are modelled by
  `PyVal`; Python floats are modelled by exact rationals.
* The transport collaborator `server.request(player=..., params=...)` is an
  abstract function `Srv` from a `Request` (target id plus command words) to
  either a parsed response mapping or a raised failure.
* Every method returns a `Res`: the normal result or the raised exception,
  paired with the ordered list of transport requests the call issued.
* The Python coercions `int(x)` and `float(x)` are modelled by `pyIntCoerce`
  and `pyFloatCoerce`, which distinguish `TypeError` (None, lists, objects)
  from `ValueError` (unparseable strings), because the source catches only
  `TypeError`.
-/

set_option autoImplicit false

/-- Kinds of Python exceptions that the embedded code can raise or catch.
`connectionError` stands for an arbitrary opaque transport failure. -/
inductive PyError where
  | typeError
  | valueError
  | attributeError
  | lmsPlayerError
  | connectionError
deriving DecidableEq

/-- Python runtime values used by `LMSPlayer`.  A constructed `LMSPlayer`
instance is `player ref name model ip`: its `ref` together with the three
snapshot fields populated by `update()` at construction time. -/
inductive PyVal where
  | none
  | str (s : String)
  | int (n : Int)
  | float (q : ℚ)
  | list (xs : List PyVal)
  | player (ref : String) (name model ip : PyVal)

/-- One call to `server.request(player=..., params=...)`. -/
structure Request where
  player : PyVal
  params : List String

/-- A parsed JSON response mapping. -/
abbrev Resp := List (String × PyVal)

/-- The transport collaborator. -/
abbrev Srv := Request → Except PyError Resp

/-- Result of running a method: the returned value or the raised exception,
together with the trace of transport requests issued (in order, including
requests issued before a failure). -/
abbrev Res (α : Type) := Except PyError α × List Request

/-- Sequencing: Python statement order; an uncaught exception aborts the rest
of the method but keeps the requests already issued. -/
def Res.bind {α β : Type} (x : Res α) (f : α → Res β) : Res β :=
  match x.1 with
  | Except.error e => (Except.error e, x.2)
  | Except.ok a => ((f a).1, x.2 ++ (f a).2)

/-- A computation that issues no request and returns `a`. -/
def Res.ok {α : Type} (a : α) : Res α := (Except.ok a, [])

/-- Lift a request-free Python expression (which may raise). -/
def liftE {α : Type} (x : Except PyError α) : Res α := (x, [])

/-- Map over the returned value. -/
def Res.map {α β : Type} (f : α → β) (x : Res α) : Res β := (x.1.map f, x.2)

/-- `try: ... except TypeError: return d`. -/
def Res.catchTE {α : Type} (x : Res α) (d : α) : Res α :=
  match x.1 with
  | Except.error PyError.typeError => (Except.ok d, x.2)
  | _ => x

/-- A bare `try: ... except: return d`, catching every exception. -/
def Res.catchAll {α : Type} (x : Res α) (d : α) : Res α :=
  match x.1 with
  | Except.error _ => (Except.ok d, x.2)
  | _ => x

/-- Run a computation on each element from left to right, collecting results
(the behaviour of a Python list comprehension over effectful calls). -/
def Res.mapList {α β : Type} (f : α → Res β) : List α → Res (List β)
  | [] => Res.ok []
  | x :: xs => Res.bind (f x) fun y => Res.map (fun ys => y :: ys) (Res.mapList f xs)

/-- Dictionary lookup underlying Python `response.get(key)`. -/
def lookupResp (r : Resp) (k : String) : Option PyVal :=
  (r.find? (fun p => p.1 == k)).map Prod.snd

/-- Python `response.get(key)`: absence yields `None`, not an error. -/
def respGet (r : Resp) (k : String) : PyVal :=
  (lookupResp r k).getD PyVal.none

/-- Truncation toward zero, as Python `int()` applied to a float. -/
def truncQ (q : ℚ) : Int := q.num.tdiv q.den

/-- Splitting a character list on every occurrence of a separator, keeping
empty segments, exactly as Python `str.split(sep)` with an explicit
single-character separator. -/
def pySplitCharsGo (sep : Char) : List Char → List Char → List (List Char)
  | acc, [] => [acc.reverse]
  | acc, c :: cs =>
    if c = sep then acc.reverse :: pySplitCharsGo sep [] cs
    else pySplitCharsGo sep (c :: acc) cs

/-- Character-level split of a string. -/
def pySplitChars (sep : Char) (cs : List Char) : List (List Char) :=
  pySplitCharsGo sep [] cs

/-- Python `s.split(sep)` for a single-character separator: splits at every
occurrence, keeping empty segments (`"a  b".split(" ") == ["a", "", "b"]`,
`"".split(" ") == [""]`). -/
def pySplit (sep : Char) (s : String) : List String :=
  (pySplitChars sep s.data).map String.mk

/-- Digit-sequence value with accumulator (`none` on a non-digit). -/
def pyDigitsGo : Nat → List Char → Option Nat
  | acc, [] => some acc
  | acc, c :: cs =>
    if c.isDigit then pyDigitsGo (acc * 10 + (c.toNat - 48)) cs
    else Option.none

/-- Value of a non-empty all-digit character sequence. -/
def pyParseNat (cs : List Char) : Option Nat :=
  match cs with
  | [] => Option.none
  | _ => pyDigitsGo 0 cs

/-- Integer-literal parsing of Python `int(s)`: optional sign followed by at
least one digit; anything else yields `none` (a `ValueError`). -/
def pyParseInt (s : String) : Option Int :=
  match s.data with
  | '-' :: cs => (pyParseNat cs).map (fun n => -(n : Int))
  | '+' :: cs => (pyParseNat cs).map (fun n => (n : Int))
  | cs => (pyParseNat cs).map (fun n => (n : Int))

/-- Decimal parsing of Python `float(s)` (optional sign, optional single
decimal point); unparseable strings yield `none` (a `ValueError`). -/
def parsePyFloat (s : String) : Option ℚ :=
  let core := fun (cs : List Char) (sgn : ℚ) =>
    match pySplitChars '.' cs with
    | [a] => (pyParseNat a).map (fun n => sgn * (n : ℚ))
    | [a, b] =>
      if a = [] && b = [] then Option.none
      else
        let ip : Option ℚ := if a = [] then some 0 else (pyParseNat a).map (fun n => (n : ℚ))
        let fp : Option ℚ :=
          if b = [] then some 0
          else (pyParseNat b).map (fun n => (n : ℚ) / ((10 : ℚ) ^ b.length))
        match ip, fp with
        | some i, some f => some (sgn * (i + f))
        | _, _ => Option.none
    | _ => Option.none
  match s.data with
  | '-' :: cs => core cs (-1)
  | '+' :: cs => core cs 1
  | cs => core cs 1

/-- Python `int(x)`: ints pass through, floats truncate toward zero, strings
parse as integer literals or raise `ValueError`, everything else raises
`TypeError`. -/
def pyIntCoerce : PyVal → Except PyError Int
  | PyVal.int n => Except.ok n
  | PyVal.float q => Except.ok (truncQ q)
  | PyVal.str s =>
    match pyParseInt s with
    | some n => Except.ok n
    | Option.none => Except.error PyError.valueError
  | _ => Except.error PyError.typeError

/-- Python `float(x)`: numbers pass through, strings parse as decimals or
raise `ValueError`, everything else raises `TypeError`. -/
def pyFloatCoerce : PyVal → Except PyError ℚ
  | PyVal.int n => Except.ok (n : ℚ)
  | PyVal.float q => Except.ok q
  | PyVal.str s =>
    match parsePyFloat s with
    | some q => Except.ok q
    | Option.none => Except.error PyError.valueError
  | _ => Except.error PyError.typeError

/-- Python `x == 1` for a response field value (used by the `muted` getter):
true exactly for numeric one. -/
def pyEqOne : PyVal → Bool
  | PyVal.int n => n == 1
  | PyVal.float q => q == 1
  | _ => false

/-- Python `str(x)`, as far as the source uses it (only the comparison with
the literal `"-"` matters; non-string renderings never equal `"-"`). -/
def pyToStr : PyVal → String
  | PyVal.none => "None"
  | PyVal.str s => s
  | PyVal.int n => toString n
  | PyVal.float q => toString q
  | PyVal.list _ => "[list]"
  | PyVal.player r _ _ _ => "LMSPlayer: " ++ r

/-- Truthiness of an optional string argument, as in `any([player, ref, ...])`:
`None` and the empty string are falsy. -/
def truthyRef : Option String → Bool
  | Option.none => false
  | some s => s != ""

/-- `LMSPlayer.request`: joins happen in reverse here, the source splits the
command string on single spaces; a non-string command (such as a list) has no
`split` attribute and raises `AttributeError` before any transport call. -/
def LMSPlayer.request (srv : Srv) (selfRef : String) (command : PyVal) : Res Resp :=
  match command with
  | PyVal.str s => (srv ⟨PyVal.str selfRef, pySplit ' ' s⟩, [⟨PyVal.str selfRef, pySplit ' ' s⟩])
  | _ => (Except.error PyError.attributeError, [])

/-- `LMSPlayer.parse_request`: `self.request(command).get(key)`. -/
def LMSPlayer.parse_request (srv : Srv) (selfRef : String) (command : PyVal)
    (key : String) : Res PyVal :=
  Res.map (fun r => respGet r key) (LMSPlayer.request srv selfRef command)

/-- `LMSPlayer.__eq__`: compares `self.ref == other.ref`; on `AttributeError`
the fallback branch evaluates `isinstance(other)` with a single argument,
which itself raises `TypeError`, so the string and default branches are
unreachable. -/
def LMSPlayer.eq (selfRef : String) (other : PyVal) : Except PyError Bool :=
  match other with
  | PyVal.player r _ _ _ => Except.ok (selfRef == r)
  | _ => Except.error PyError.typeError

/-- `LMSPlayer.__init__` followed by `update()`: stores the reference and
populates the name, model and ip snapshots with three queries. -/
def mkLMSPlayer (srv : Srv) (ref : String) : Res PyVal :=
  Res.bind (LMSPlayer.parse_request srv ref (PyVal.str "name ?") "_value") fun n =>
  Res.bind (LMSPlayer.parse_request srv ref (PyVal.str "player model ?") "_model") fun m =>
  Res.bind (LMSPlayer.parse_request srv ref (PyVal.str "player ip ?") "_ip") fun i =>
  Res.ok (PyVal.player ref n m i)

/-- `volume` getter: `int(...)` with a `TypeError` fallback of `0`. -/
def LMSPlayer.volume (srv : Srv) (selfRef : String) : Res Int :=
  Res.catchTE
    (Res.bind (LMSPlayer.parse_request srv selfRef (PyVal.str "mixer volume ?") "_volume")
      (fun v => liftE (pyIntCoerce v))) 0

/-- `muted` getter: `None` means unmuted, otherwise the value is compared
with `1`; no coercion, so it never raises beyond the transport. -/
def LMSPlayer.muted (srv : Srv) (selfRef : String) : Res Bool :=
  Res.bind (LMSPlayer.parse_request srv selfRef (PyVal.str "mixer muting ?") "_muting")
    fun v =>
      match v with
      | PyVal.none => Res.ok false
      | w => Res.ok (pyEqOne w)

/-- `time_elapsed` getter: `float(...)` with a `TypeError` fallback of `0.0`. -/
def LMSPlayer.time_elapsed (srv : Srv) (selfRef : String) : Res ℚ :=
  Res.catchTE
    (Res.bind (LMSPlayer.parse_request srv selfRef (PyVal.str "time ?") "_time")
      (fun v => liftE (pyFloatCoerce v))) 0

/-- `track_duration` getter: `float(...)` with a `TypeError` fallback of `0.0`. -/
def LMSPlayer.track_duration (srv : Srv) (selfRef : String) : Res ℚ :=
  Res.catchTE
    (Res.bind (LMSPlayer.parse_request srv selfRef (PyVal.str "duration ?") "_duration")
      (fun v => liftE (pyFloatCoerce v))) 0

/-- `track_count` getter: `int(...)` with a `TypeError` fallback of `0`. -/
def LMSPlayer.track_count (srv : Srv) (selfRef : String) : Res Int :=
  Res.catchTE
    (Res.bind (LMSPlayer.parse_request srv selfRef (PyVal.str "playlist tracks ?") "_tracks")
      (fun v => liftE (pyIntCoerce v))) 0

/-- `playlist_position` getter: `int(...)` with a `TypeError` fallback of `0`. -/
def LMSPlayer.playlist_position (srv : Srv) (selfRef : String) : Res Int :=
  Res.catchTE
    (Res.bind (LMSPlayer.parse_request srv selfRef (PyVal.str "playlist index ?") "_index")
      (fun v => liftE (pyIntCoerce v))) 0

/-- `track_elapsed_and_duration`: queries the duration first, then the
elapsed time, and returns the pair `(elapsed, duration)`. -/
def LMSPlayer.track_elapsed_and_duration (srv : Srv) (selfRef : String) : Res (ℚ × ℚ) :=
  Res.bind (LMSPlayer.track_duration srv selfRef) fun d =>
  Res.bind (LMSPlayer.time_elapsed srv selfRef) fun e =>
  Res.ok (e, d)

/-- `percentage_elapsed(upper=100)`: `(elapsed / duration) * upper`, with the
`ZeroDivisionError` for a zero duration caught and turned into `0.0`. -/
def LMSPlayer.percentage_elapsed (srv : Srv) (selfRef : String) (upper : ℚ) : Res ℚ :=
  Res.bind (LMSPlayer.track_elapsed_and_duration srv selfRef) fun p =>
    if p.2 = 0 then Res.ok 0 else Res.ok (p.1 / p.2 * upper)

/-- `time_remaining`: `self.track_duration - self.time_elapsed` (left operand
queried first). -/
def LMSPlayer.time_remaining (srv : Srv) (selfRef : String) : Res ℚ :=
  Res.bind (LMSPlayer.track_duration srv selfRef) fun d =>
  Res.bind (LMSPlayer.time_elapsed srv selfRef) fun e =>
  Res.ok (d - e)

/-- `volume` setter: coerce with `int()`, clamp to `[0, 100]`, send
`mixer volume {v}`; only `TypeError` is silenced. -/
def LMSPlayer.volume_set (srv : Srv) (selfRef : String) (volume : PyVal) : Res Unit :=
  Res.catchTE
    (Res.bind (liftE (pyIntCoerce volume)) fun v =>
      let v1 := max 0 v
      let v2 := min 100 v1
      Res.map (fun _ => ()) (LMSPlayer.request srv selfRef (PyVal.str s!"mixer volume {v2}")))
    ()

/-- `seek_to(seconds)`: coerce with `float()`, send `time {seconds}`; only
`TypeError` is silenced. -/
def LMSPlayer.seek_to (srv : Srv) (selfRef : String) (seconds : PyVal) : Res Unit :=
  Res.catchTE
    (Res.bind (liftE (pyFloatCoerce seconds)) fun s =>
      Res.map (fun _ => ()) (LMSPlayer.request srv selfRef (PyVal.str s!"time {s}")))
    ()

/-- `forward(seconds=10)`: coerce with `int()`, send `time +{seconds}`; only
`TypeError` is silenced. -/
def LMSPlayer.forward (srv : Srv) (selfRef : String) (seconds : PyVal) : Res Unit :=
  Res.catchTE
    (Res.bind (liftE (pyIntCoerce seconds)) fun s =>
      Res.map (fun _ => ()) (LMSPlayer.request srv selfRef (PyVal.str s!"time +{s}")))
    ()

/-- `rewind(seconds=10)`: coerce with `int()`, send `time -{seconds}`; only
`TypeError` is silenced. -/
def LMSPlayer.rewind (srv : Srv) (selfRef : String) (seconds : PyVal) : Res Unit :=
  Res.catchTE
    (Res.bind (liftE (pyIntCoerce seconds)) fun s =>
      Res.map (fun _ => ()) (LMSPlayer.request srv selfRef (PyVal.str s!"time -{s}")))
    ()

/-- The `tags:` argument of the status command: empty when the tag list is
`None` or empty (Python truthiness of `if taglist:`). -/
def tagsArg : Option (List String) → String
  | Option.none => ""
  | some l => if l = [] then "" else "tags:" ++ String.intercalate "," l

/-- The command string `f"status {start} {amount} {tags}"` (note the trailing
space when no tags are requested, exactly as the f-string produces it). -/
def statusCommand (start amount : Int) (taglist : Option (List String)) : String :=
  let tags := tagsArg taglist
  s!"status {start} {amount} {tags}"

/-- The transport request issued by the status query of `playlist_get_info`. -/
def statusReq (selfRef : String) (start : Option Int) (amount : Int)
    (taglist : Option (List String)) : Request :=
  ⟨PyVal.str selfRef, pySplit ' ' (statusCommand (start.getD 0) amount taglist)⟩

/-- `playlist_get_info(taglist, start, amount)`: when `amount` is `None` the
live `track_count` is queried first (outside any handler); `start` defaults
to `0`; then the status query runs inside a bare `try`/`except` that turns
any failure into `[]`.  The `playlist_loop` field is returned as-is, so a
response without that key yields `None`. -/
def LMSPlayer.playlist_get_info (srv : Srv) (selfRef : String)
    (taglist : Option (List String)) (start amount : Option Int) : Res PyVal :=
  Res.bind
    (match amount with
     | some a => Res.ok a
     | Option.none => LMSPlayer.track_count srv selfRef) fun a =>
  Res.catchAll
    (LMSPlayer.parse_request srv selfRef
      (PyVal.str (statusCommand (start.getD 0) a taglist)) "playlist_loop")
    (PyVal.list [])

/-- `sync(player, ref, index, master)`: argument checks use Python truthiness
(`any([player, ref, index is not None])`); as master the source calls
`self.request(["sync", target])`, handing a list to `request`, whose
`command.split` then raises `AttributeError`; as follower it calls
`self.server.request(player=target, params=["sync", self.ref])` directly. -/
def LMSPlayer.sync (srv : Srv) (selfRef : String) (player ref : Option String)
    (index : Option Int) (master : Bool) : Res Unit :=
  if !(player.isSome || truthyRef ref || index.isSome) then
    (Except.error PyError.lmsPlayerError, [])
  else if !master && !(player.isSome || truthyRef ref) then
    (Except.error PyError.lmsPlayerError, [])
  else
    let idxVal : PyVal := match index with
      | some i => PyVal.int i
      | Option.none => PyVal.none
    let target : PyVal :=
      match player with
      | some p => PyVal.str p
      | Option.none =>
        match ref with
        | some r => if r != "" then PyVal.str r else idxVal
        | Option.none => idxVal
    if master then
      Res.map (fun _ => ())
        (LMSPlayer.request srv selfRef (PyVal.list [PyVal.str "sync", target]))
    else
      Res.map (fun _ => ()) ((srv ⟨target, ["sync", selfRef]⟩, [⟨target, ["sync", selfRef]⟩]))

/-- `get_synced_players(refs_only)`: reads `_sync` from `sync ?`; `str(sync)`
equal to `"-"` yields `[]`; otherwise the value is split on commas, returned
as bare reference strings or as freshly constructed `LMSPlayer` instances
(each construction performing its own three-query refresh). -/
def LMSPlayer.get_synced_players (srv : Srv) (selfRef : String)
    (refs_only : Bool) : Res (List PyVal) :=
  Res.bind (LMSPlayer.parse_request srv selfRef (PyVal.str "sync ?") "_sync") fun sync =>
    if pyToStr sync == "-" then Res.ok []
    else
      match sync with
      | PyVal.str s =>
        if refs_only then Res.ok ((pySplit ',' s).map PyVal.str)
        else Res.mapList (mkLMSPlayer srv) (pySplit ',' s)
      | _ => (Except.error PyError.attributeError, [])

/-- The request issued by `LMSPlayer.request` for a string command: addressed
to this player, words obtained by splitting on single spaces. -/
def selfReq (selfRef s : String) : Request :=
  ⟨PyVal.str selfRef, pySplit ' ' s⟩

theorem LMSPlayer.request_str (srv : Srv) (selfRef s : String) :
    LMSPlayer.request srv selfRef (PyVal.str s)
      = (srv (selfReq selfRef s), [selfReq selfRef s]) := rfl

theorem Res.bind_fst_error {α β : Type} (x : Res α) (f : α → Res β) (e : PyError)
    (h : x.1 = Except.error e) : Res.bind x f = (Except.error e, x.2) := by
  simp [Res.bind, h]

theorem Res.bind_fst_ok {α β : Type} (x : Res α) (f : α → Res β) (a : α)
    (h : x.1 = Except.ok a) : Res.bind x f = ((f a).1, x.2 ++ (f a).2) := by
  simp [Res.bind, h]

theorem Res.catchTE_snd {α : Type} (x : Res α) (d : α) :
    (Res.catchTE x d).2 = x.2 := by
  rcases x with ⟨r, t⟩
  cases r with
  | ok a => rfl
  | error e => cases e <;> rfl

theorem Res.catchTE_fst_ok {α : Type} (x : Res α) (d : α) (a : α)
    (h : x.1 = Except.ok a) : Res.catchTE x d = x := by
  simp [Res.catchTE, h]

theorem Res.catchTE_fst_te {α : Type} (x : Res α) (d : α)
    (h : x.1 = Except.error PyError.typeError) :
    Res.catchTE x d = (Except.ok d, x.2) := by
  simp [Res.catchTE, h]

theorem Res.catchTE_fst_error {α : Type} (x : Res α) (d : α) (e : PyError)
    (he : e ≠ PyError.typeError) (h : x.1 = Except.error e) :
    Res.catchTE x d = x := by
  cases e <;> simp_all [Res.catchTE]

theorem Res.catchAll_fst_ok {α : Type} (x : Res α) (d : α) (a : α)
    (h : x.1 = Except.ok a) : Res.catchAll x d = x := by
  simp [Res.catchAll, h]

theorem Res.catchAll_fst_error {α : Type} (x : Res α) (d : α) (e : PyError)
    (h : x.1 = Except.error e) : Res.catchAll x d = (Except.ok d, x.2) := by
  simp [Res.catchAll, h]

/-- Claim C1, counterexample: two handles whose references differ only by
letter case compare not-equal (reference comparison between instances is case
sensitive), a handle compared with its own reference as a bare string raises
`TypeError` instead of comparing equal, and a handle compared with an
unrelated object also raises `TypeError` instead of returning not-equal: the
`AttributeError` fallback calls `isinstance` with a single argument. -/
theorem c1_equality_counterexample :
    LMSPlayer.eq "AA:BB" (PyVal.player "aa:bb" PyVal.none PyVal.none PyVal.none)
      = Except.ok false ∧
    LMSPlayer.eq "aa:bb" (PyVal.str "aa:bb") = Except.error PyError.typeError ∧
    LMSPlayer.eq "aa:bb" (PyVal.int 5) = Except.error PyError.typeError :=
  ⟨rfl, rfl, rfl⟩

/-- Claim C1, amended: comparing two player handles returns case sensitive
structural equality of their references, while comparing a handle to a bare
string, to `None`, or to any other object without a `ref` attribute raises
`TypeError` (from the malformed single-argument `isinstance` call in the
`AttributeError` fallback) rather than returning a boolean. -/
theorem c1_equality_amended (r1 r2 : String) (n m i : PyVal) (s : String) (k : Int) :
    LMSPlayer.eq r1 (PyVal.player r2 n m i) = Except.ok (r1 == r2) ∧
    LMSPlayer.eq r1 (PyVal.str s) = Except.error PyError.typeError ∧
    LMSPlayer.eq r1 (PyVal.int k) = Except.error PyError.typeError ∧
    LMSPlayer.eq r1 PyVal.none = Except.error PyError.typeError :=
  ⟨rfl, rfl, rfl, rfl⟩

/-- Claim C2, the code evaluated at the failing input: with a resolvable
target, the master branch hands the list `["sync", target]` to
`LMSPlayer.request`, whose `command.split` call raises `AttributeError`
before any transport call, so acting as master never issues the sync
command; the follower branch correctly issues `sync {selfRef}` addressed to
the target player. -/
theorem c2_sync_routing_bug (srv : Srv) :
    LMSPlayer.sync srv "aa:bb:cc:dd:ee:ff" Option.none (some "11:22:33:44:55:66")
        Option.none true
      = (Except.error PyError.attributeError, []) ∧
    LMSPlayer.sync srv "aa:bb:cc:dd:ee:ff" Option.none (some "11:22:33:44:55:66")
        Option.none false
      = (Except.map (fun _ => ())
           (srv ⟨PyVal.str "11:22:33:44:55:66", ["sync", "aa:bb:cc:dd:ee:ff"]⟩),
         [⟨PyVal.str "11:22:33:44:55:66", ["sync", "aa:bb:cc:dd:ee:ff"]⟩]) :=
  ⟨rfl, rfl⟩

/-- Claim C6: calling `sync` with none of a player handle, a reference or an
ordinal index raises `LMSPlayerError` without issuing any transport request,
and calling it with `master = false` and neither a handle nor a reference
raises `LMSPlayerError` even when an index is supplied. -/
theorem c6_sync_preconditions (srv : Srv) (selfRef : String) (master : Bool) (i : Int) :
    LMSPlayer.sync srv selfRef Option.none Option.none Option.none master
      = (Except.error PyError.lmsPlayerError, []) ∧
    LMSPlayer.sync srv selfRef Option.none Option.none (some i) false
      = (Except.error PyError.lmsPlayerError, []) :=
  ⟨rfl, rfl⟩


theorem Res.bind_error_pair {α β : Type} (e : PyError) (t : List Request)
    (f : α → Res β) : Res.bind (Except.error e, t) f = (Except.error e, t) := rfl

theorem Res.bind_ok_pair {α β : Type} (a : α) (t : List Request) (f : α → Res β) :
    Res.bind (Except.ok a, t) f = ((f a).1, t ++ (f a).2) := rfl

theorem Res.catchAll_error_pair {α : Type} (e : PyError) (t : List Request) (d : α) :
    Res.catchAll (Except.error e, t) d = (Except.ok d, t) := rfl

theorem Res.catchAll_ok_pair {α : Type} (a : α) (t : List Request) (d : α) :
    Res.catchAll (Except.ok a, t) d = (Except.ok a, t) := rfl

theorem Res.catchTE_error_pair {α : Type} (e : PyError) (t : List Request) (d : α)
    (he : e ≠ PyError.typeError) :
    Res.catchTE (Except.error e, t) d = (Except.error e, t) := by
  cases e <;> simp_all [Res.catchTE]

theorem Res.catchTE_te_pair {α : Type} (t : List Request) (d : α) :
    Res.catchTE (Except.error PyError.typeError, t) d = (Except.ok d, t) := rfl

theorem Res.catchTE_ok_pair {α : Type} (a : α) (t : List Request) (d : α) :
    Res.catchTE (Except.ok a, t) d = (Except.ok a, t) := rfl

theorem parse_request_str (srv : Srv) (selfRef s key : String) :
    LMSPlayer.parse_request srv selfRef (PyVal.str s) key
      = (Except.map (fun r => respGet r key) (srv (selfReq selfRef s)),
         [selfReq selfRef s]) := rfl

theorem parse_request_str_ok (srv : Srv) (selfRef s key : String) (resp : Resp)
    (h : srv (selfReq selfRef s) = Except.ok resp) :
    LMSPlayer.parse_request srv selfRef (PyVal.str s) key
      = (Except.ok (respGet resp key), [selfReq selfRef s]) := by
  rw [parse_request_str, h]
  rfl

theorem parse_request_str_error (srv : Srv) (selfRef s key : String) (e : PyError)
    (h : srv (selfReq selfRef s) = Except.error e) :
    LMSPlayer.parse_request srv selfRef (PyVal.str s) key
      = (Except.error e, [selfReq selfRef s]) := by
  rw [parse_request_str, h]
  rfl

/-- Transport that fails exactly on the `playlist tracks ?` query. -/
def c3BadTrackSrv : Srv := fun r =>
  if r.params = ["playlist", "tracks", "?"] then Except.error PyError.connectionError
  else Except.ok []

/-- Claim C3, counterexample: with `amount` absent, the preliminary
`playlist tracks ?` round trip happens outside the `try` block, so a
transport failure raised there propagates out of `playlist_get_info` instead
of being converted into an empty sequence. -/
theorem c3_suppression_counterexample :
    LMSPlayer.playlist_get_info c3BadTrackSrv "aa:bb" Option.none Option.none Option.none
      = (Except.error PyError.connectionError, [selfReq "aa:bb" "playlist tracks ?"]) :=
  rfl

/-- Claim C3, amended: any failure raised by the status query itself is
suppressed and yields the empty list, but when `amount` is absent the
preliminary live track-count query runs before the `try` block, and a
transport failure there (other than a `TypeError`, which the count coercion
silences into `0`) propagates to the caller; `start` defaults to `0`. -/
theorem c3_suppression_amended (srv : Srv) (ref : String)
    (taglist : Option (List String)) (start : Option Int) :
    (∀ (a : Int) (e : PyError),
        srv (statusReq ref start a taglist) = Except.error e →
        LMSPlayer.playlist_get_info srv ref taglist start (some a)
          = (Except.ok (PyVal.list []), [statusReq ref start a taglist])) ∧
    (∀ e : PyError, e ≠ PyError.typeError →
        srv (selfReq ref "playlist tracks ?") = Except.error e →
        LMSPlayer.playlist_get_info srv ref taglist start Option.none
          = (Except.error e, [selfReq ref "playlist tracks ?"])) := by
  constructor
  · intro a e h
    have hreq : statusReq ref start a taglist
        = selfReq ref (statusCommand (start.getD 0) a taglist) := rfl
    rw [hreq] at h
    have hp := parse_request_str_error srv ref
      (statusCommand (start.getD 0) a taglist) "playlist_loop" e h
    rw [LMSPlayer.playlist_get_info]
    simp only [Res.ok, Res.bind_ok_pair, hp, hreq, Res.catchAll_error_pair,
      List.nil_append]
  · intro e he h
    have hp := parse_request_str_error srv ref "playlist tracks ?" "_tracks" e h
    have hc : LMSPlayer.track_count srv ref
        = (Except.error e, [selfReq ref "playlist tracks ?"]) := by
      rw [LMSPlayer.track_count, hp, Res.bind_error_pair, Res.catchTE_error_pair _ _ _ he]
    rw [LMSPlayer.playlist_get_info, hc, Res.bind_error_pair]

/-- Transport on which every request fails. -/
def c3AllErrSrv : Srv := fun _ => Except.error PyError.connectionError

/-- Claim C3, witness: on a transport where every call fails, a call with an
explicit amount returns the empty list, while a call with `amount` absent
propagates the failure of the track-count query. -/
theorem c3_suppression_witness :
    LMSPlayer.playlist_get_info c3AllErrSrv "aa" Option.none Option.none (some 2)
      = (Except.ok (PyVal.list []), [statusReq "aa" Option.none 2 Option.none]) ∧
    LMSPlayer.playlist_get_info c3AllErrSrv "aa" Option.none Option.none Option.none
      = (Except.error PyError.connectionError, [selfReq "aa" "playlist tracks ?"]) := by
  have h := c3_suppression_amended c3AllErrSrv "aa" Option.none Option.none
  exact ⟨h.1 2 PyError.connectionError rfl,
    h.2 PyError.connectionError (by decide) rfl⟩

/-- Claim C10: when the status query succeeds but its response mapping has no
`playlist_loop` key, `playlist_get_info` returns `None` (the value of
`dict.get` on a missing key), not an empty sequence and not an error; this
holds both with an explicit `amount` and with `amount` absent (after a
successful track-count query). -/
theorem c10_missing_playlist_loop (srv : Srv) (ref : String)
    (taglist : Option (List String)) (start : Option Int) :
    (∀ (a : Int) (resp : Resp),
        srv (statusReq ref start a taglist) = Except.ok resp →
        lookupResp resp "playlist_loop" = Option.none →
        LMSPlayer.playlist_get_info srv ref taglist start (some a)
          = (Except.ok PyVal.none, [statusReq ref start a taglist])) ∧
    (∀ (n : Int) (t : List Request) (resp : Resp),
        LMSPlayer.track_count srv ref = (Except.ok n, t) →
        srv (statusReq ref start n taglist) = Except.ok resp →
        lookupResp resp "playlist_loop" = Option.none →
        LMSPlayer.playlist_get_info srv ref taglist start Option.none
          = (Except.ok PyVal.none, t ++ [statusReq ref start n taglist])) := by
  constructor
  · intro a resp hs hl
    have hreq : statusReq ref start a taglist
        = selfReq ref (statusCommand (start.getD 0) a taglist) := rfl
    rw [hreq] at hs
    have hp := parse_request_str_ok srv ref
      (statusCommand (start.getD 0) a taglist) "playlist_loop" resp hs
    have hg : respGet resp "playlist_loop" = PyVal.none := by simp [respGet, hl]
    rw [hg] at hp
    rw [LMSPlayer.playlist_get_info]
    simp only [Res.ok, Res.bind_ok_pair, hp, hreq, Res.catchAll_ok_pair,
      List.nil_append]
  · intro n t resp hc hs hl
    have hreq : statusReq ref start n taglist
        = selfReq ref (statusCommand (start.getD 0) n taglist) := rfl
    rw [hreq] at hs
    have hp := parse_request_str_ok srv ref
      (statusCommand (start.getD 0) n taglist) "playlist_loop" resp hs
    have hg : respGet resp "playlist_loop" = PyVal.none := by simp [respGet, hl]
    rw [hg] at hp
    rw [LMSPlayer.playlist_get_info, hc]
    simp only [Res.bind_ok_pair, hp, hreq, Res.catchAll_ok_pair]

/-- Transport answering the track-count query with three tracks and every
other query with a mapping that lacks the `playlist_loop` key. -/
def c10NoLoopSrv : Srv := fun r =>
  if r.params = ["playlist", "tracks", "?"] then Except.ok [("_tracks", PyVal.int 3)]
  else Except.ok [("playlist_count", PyVal.int 3)]

/-- Claim C10, witness: with and without an explicit amount, a successful
status response without `playlist_loop` makes `playlist_get_info` return
`None`. -/
theorem c10_missing_playlist_loop_witness :
    LMSPlayer.playlist_get_info c10NoLoopSrv "aa" Option.none Option.none (some 2)
      = (Except.ok PyVal.none, [statusReq "aa" Option.none 2 Option.none]) ∧
    LMSPlayer.playlist_get_info c10NoLoopSrv "aa" Option.none Option.none Option.none
      = (Except.ok PyVal.none,
         [selfReq "aa" "playlist tracks ?", statusReq "aa" Option.none 3 Option.none]) := by
  have h := c10_missing_playlist_loop c10NoLoopSrv "aa" Option.none Option.none
  exact ⟨h.1 2 [("playlist_count", PyVal.int 3)] rfl rfl,
    h.2 3 [selfReq "aa" "playlist tracks ?"] [("playlist_count", PyVal.int 3)] rfl rfl rfl⟩

theorem int_getter_missing (srv : Srv) (ref cmd field : String) (resp : Resp)
    (hs : srv (selfReq ref cmd) = Except.ok resp)
    (hl : lookupResp resp field = Option.none) :
    Res.catchTE
      (Res.bind (LMSPlayer.parse_request srv ref (PyVal.str cmd) field)
        (fun v => liftE (pyIntCoerce v))) 0
      = (Except.ok 0, [selfReq ref cmd]) := by
  have hp := parse_request_str_ok srv ref cmd field resp hs
  have hg : respGet resp field = PyVal.none := by simp [respGet, hl]
  rw [hg] at hp
  rw [hp]
  rfl

theorem float_getter_missing (srv : Srv) (ref cmd field : String) (resp : Resp)
    (hs : srv (selfReq ref cmd) = Except.ok resp)
    (hl : lookupResp resp field = Option.none) :
    Res.catchTE
      (Res.bind (LMSPlayer.parse_request srv ref (PyVal.str cmd) field)
        (fun v => liftE (pyFloatCoerce v))) 0
      = (Except.ok 0, [selfReq ref cmd]) := by
  have hp := parse_request_str_ok srv ref cmd field resp hs
  have hg : respGet resp field = PyVal.none := by simp [respGet, hl]
  rw [hg] at hp
  rw [hp]
  rfl

/-- Claim C4, counterexample: a response carrying a non-numeric string in the
queried field does not produce the documented default: the `int()` coercion
raises `ValueError`, which the getter (catching only `TypeError`) lets
propagate. -/
def c4InvalidSrv : Srv := fun _ => Except.ok [("_volume", PyVal.str "loud")]

/-- Claim C4, counterexample theorem: `volume` on a response with
`_volume = "loud"` raises `ValueError` instead of returning `0`. -/
theorem c4_defaults_counterexample :
    LMSPlayer.volume c4InvalidSrv "aa:bb"
      = (Except.error PyError.valueError, [selfReq "aa:bb" "mixer volume ?"]) :=
  rfl

/-- Claim C4, amended: when the queried field is missing from the response,
each getter returns its documented default without raising: volume `0`, mute
`false`, elapsed time `0.0`, track duration `0.0`, track count `0`, playlist
position `0` (a missing field coerces `None`, whose `TypeError` is caught;
an unparseable string value instead raises `ValueError`). -/
theorem c4_defaults_amended (srv : Srv) (ref : String) :
    (∀ resp : Resp, srv (selfReq ref "mixer volume ?") = Except.ok resp →
        lookupResp resp "_volume" = Option.none →
        LMSPlayer.volume srv ref = (Except.ok 0, [selfReq ref "mixer volume ?"])) ∧
    (∀ resp : Resp, srv (selfReq ref "mixer muting ?") = Except.ok resp →
        lookupResp resp "_muting" = Option.none →
        LMSPlayer.muted srv ref = (Except.ok false, [selfReq ref "mixer muting ?"])) ∧
    (∀ resp : Resp, srv (selfReq ref "time ?") = Except.ok resp →
        lookupResp resp "_time" = Option.none →
        LMSPlayer.time_elapsed srv ref = (Except.ok 0, [selfReq ref "time ?"])) ∧
    (∀ resp : Resp, srv (selfReq ref "duration ?") = Except.ok resp →
        lookupResp resp "_duration" = Option.none →
        LMSPlayer.track_duration srv ref = (Except.ok 0, [selfReq ref "duration ?"])) ∧
    (∀ resp : Resp, srv (selfReq ref "playlist tracks ?") = Except.ok resp →
        lookupResp resp "_tracks" = Option.none →
        LMSPlayer.track_count srv ref = (Except.ok 0, [selfReq ref "playlist tracks ?"])) ∧
    (∀ resp : Resp, srv (selfReq ref "playlist index ?") = Except.ok resp →
        lookupResp resp "_index" = Option.none →
        LMSPlayer.playlist_position srv ref
          = (Except.ok 0, [selfReq ref "playlist index ?"])) := by
  refine ⟨?_, ?_, ?_, ?_, ?_, ?_⟩
  · intro resp hs hl
    exact int_getter_missing srv ref "mixer volume ?" "_volume" resp hs hl
  · intro resp hs hl
    have hp := parse_request_str_ok srv ref "mixer muting ?" "_muting" resp hs
    have hg : respGet resp "_muting" = PyVal.none := by simp [respGet, hl]
    rw [hg] at hp
    rw [LMSPlayer.muted, hp]
    rfl
  · intro resp hs hl
    exact float_getter_missing srv ref "time ?" "_time" resp hs hl
  · intro resp hs hl
    exact float_getter_missing srv ref "duration ?" "_duration" resp hs hl
  · intro resp hs hl
    exact int_getter_missing srv ref "playlist tracks ?" "_tracks" resp hs hl
  · intro resp hs hl
    exact int_getter_missing srv ref "playlist index ?" "_index" resp hs hl

/-- Transport whose responses are empty mappings. -/
def c4EmptySrv : Srv := fun _ => Except.ok []

/-- Claim C4, witness: on empty responses every getter yields its documented
default. -/
theorem c4_defaults_witness :
    LMSPlayer.volume c4EmptySrv "aa" = (Except.ok 0, [selfReq "aa" "mixer volume ?"]) ∧
    LMSPlayer.muted c4EmptySrv "aa" = (Except.ok false, [selfReq "aa" "mixer muting ?"]) ∧
    LMSPlayer.time_elapsed c4EmptySrv "aa" = (Except.ok 0, [selfReq "aa" "time ?"]) ∧
    LMSPlayer.track_duration c4EmptySrv "aa" = (Except.ok 0, [selfReq "aa" "duration ?"]) ∧
    LMSPlayer.track_count c4EmptySrv "aa"
      = (Except.ok 0, [selfReq "aa" "playlist tracks ?"]) ∧
    LMSPlayer.playlist_position c4EmptySrv "aa"
      = (Except.ok 0, [selfReq "aa" "playlist index ?"]) := by
  obtain ⟨h1, h2, h3, h4, h5, h6⟩ := c4_defaults_amended c4EmptySrv "aa"
  exact ⟨h1 [] rfl rfl, h2 [] rfl rfl, h3 [] rfl rfl, h4 [] rfl rfl,
    h5 [] rfl rfl, h6 [] rfl rfl⟩

/-- Transport with empty responses, for exercising the setters. -/
def c5EmptySrv : Srv := fun _ => Except.ok []

/-- The rational `55.5` (as `111/2` in lowest terms), written as an explicit
reduced fraction. -/
def q111over2 : ℚ := ⟨111, 2, by decide, by decide⟩

/-- Claim C5, counterexample: the numeric value `55.5` is truncated by
`int()` before clamping, so the transport receives `mixer volume 55` rather
than `clamp(55.5, 0, 100) = 55.5`; and the non-numeric string `"loud"`
raises `ValueError` (only `TypeError` is silenced), so the call is not a
silent no-op. -/
theorem c5_setters_counterexample :
    LMSPlayer.volume_set c5EmptySrv "aa:bb" (PyVal.float q111over2)
      = (Except.ok (), [selfReq "aa:bb" "mixer volume 55"]) ∧
    LMSPlayer.volume_set c5EmptySrv "aa:bb" (PyVal.str "loud")
      = (Except.error PyError.valueError, []) :=
  ⟨rfl, rfl⟩

/-- Claim C5, amended: an integer volume is clamped to `[0, 100]` and sent;
a float volume is truncated toward zero by `int()` and then clamped; a
`None` argument is silently dropped (no transport call, no error) by
`volume`, `seek_to`, `forward` and `rewind` alike; a string that fails
numeric parsing raises `ValueError` without any transport call. -/
theorem c5_setters_amended (srv : Srv) (ref : String) :
    (∀ n : Int, (LMSPlayer.volume_set srv ref (PyVal.int n)).2
        = [selfReq ref s!"mixer volume {min 100 (max 0 n)}"]) ∧
    (∀ q : ℚ, (LMSPlayer.volume_set srv ref (PyVal.float q)).2
        = [selfReq ref s!"mixer volume {min 100 (max 0 (truncQ q))}"]) ∧
    (LMSPlayer.volume_set srv ref PyVal.none = (Except.ok (), [])) ∧
    (∀ s : String, pyParseInt s = Option.none →
        LMSPlayer.volume_set srv ref (PyVal.str s)
          = (Except.error PyError.valueError, [])) ∧
    (LMSPlayer.seek_to srv ref PyVal.none = (Except.ok (), [])) ∧
    (LMSPlayer.forward srv ref PyVal.none = (Except.ok (), [])) ∧
    (LMSPlayer.rewind srv ref PyVal.none = (Except.ok (), [])) ∧
    (∀ s : String, parsePyFloat s = Option.none →
        LMSPlayer.seek_to srv ref (PyVal.str s)
          = (Except.error PyError.valueError, [])) ∧
    (∀ s : String, pyParseInt s = Option.none →
        LMSPlayer.forward srv ref (PyVal.str s)
          = (Except.error PyError.valueError, []) ∧
        LMSPlayer.rewind srv ref (PyVal.str s)
          = (Except.error PyError.valueError, [])) := by
  refine ⟨?_, ?_, rfl, ?_, rfl, rfl, rfl, ?_, ?_⟩
  · intro n
    rw [LMSPlayer.volume_set, Res.catchTE_snd]
    rfl
  · intro q
    rw [LMSPlayer.volume_set, Res.catchTE_snd]
    rfl
  · intro s hsn
    have hc : pyIntCoerce (PyVal.str s) = Except.error PyError.valueError := by
      simp [pyIntCoerce, hsn]
    rw [LMSPlayer.volume_set, hc]
    rfl
  · intro s hsn
    have hc : pyFloatCoerce (PyVal.str s) = Except.error PyError.valueError := by
      simp [pyFloatCoerce, hsn]
    rw [LMSPlayer.seek_to, hc]
    rfl
  · intro s hsn
    have hc : pyIntCoerce (PyVal.str s) = Except.error PyError.valueError := by
      simp [pyIntCoerce, hsn]
    constructor
    · rw [LMSPlayer.forward, hc]
      rfl
    · rw [LMSPlayer.rewind, hc]
      rfl

/-- Claim C5, witness: an out-of-range integer is clamped to `100`, `None`
is silently dropped, and the non-numeric string `"loud"` raises
`ValueError` with no transport call, for each coercing setter. -/
theorem c5_setters_witness :
    (LMSPlayer.volume_set c5EmptySrv "aa" (PyVal.int 150)).2
      = [selfReq "aa" "mixer volume 100"] ∧
    LMSPlayer.volume_set c5EmptySrv "aa" PyVal.none = (Except.ok (), []) ∧
    LMSPlayer.volume_set c5EmptySrv "aa" (PyVal.str "loud")
      = (Except.error PyError.valueError, []) ∧
    LMSPlayer.seek_to c5EmptySrv "aa" (PyVal.str "loud")
      = (Except.error PyError.valueError, []) ∧
    LMSPlayer.forward c5EmptySrv "aa" (PyVal.str "loud")
      = (Except.error PyError.valueError, []) ∧
    LMSPlayer.rewind c5EmptySrv "aa" (PyVal.str "loud")
      = (Except.error PyError.valueError, []) := by
  obtain ⟨h1, h2, h3, h4, h5, h6, h7, h8, h9⟩ := c5_setters_amended c5EmptySrv "aa"
  exact ⟨h1 150, h3, h4 "loud" rfl, h8 "loud" rfl, (h9 "loud" rfl).1, (h9 "loud" rfl).2⟩

/-- Claim C7: when the `_sync` field is exactly `"-"` the synced-player list
is empty for both modes; for any other string value the result has one entry
per comma-separated reference, as bare reference strings when `refs_only` is
true, and as freshly constructed `LMSPlayer` instances (each construction
running its own refresh queries, visible in the appended request trace) when
`refs_only` is false. -/
theorem c7_synced_players (srv : Srv) (selfRef : String) (resp : Resp)
    (hsrv : srv (selfReq selfRef "sync ?") = Except.ok resp) :
    (lookupResp resp "_sync" = some (PyVal.str "-") →
        ∀ b : Bool, LMSPlayer.get_synced_players srv selfRef b
          = (Except.ok [], [selfReq selfRef "sync ?"])) ∧
    (∀ s : String, lookupResp resp "_sync" = some (PyVal.str s) → s ≠ "-" →
        LMSPlayer.get_synced_players srv selfRef true
          = (Except.ok ((pySplit ',' s).map PyVal.str), [selfReq selfRef "sync ?"]) ∧
        LMSPlayer.get_synced_players srv selfRef false
          = ((Res.mapList (mkLMSPlayer srv) (pySplit ',' s)).1,
             selfReq selfRef "sync ?" :: (Res.mapList (mkLMSPlayer srv) (pySplit ',' s)).2)) := by
  constructor
  · intro hl b
    have hp := parse_request_str_ok srv selfRef "sync ?" "_sync" resp hsrv
    have hg : respGet resp "_sync" = PyVal.str "-" := by simp [respGet, hl]
    rw [hg] at hp
    rw [LMSPlayer.get_synced_players, hp, Res.bind_ok_pair]
    rfl
  · intro s hl hne
    have hp := parse_request_str_ok srv selfRef "sync ?" "_sync" resp hsrv
    have hg : respGet resp "_sync" = PyVal.str s := by simp [respGet, hl]
    rw [hg] at hp
    have hcond : ¬ ((pyToStr (PyVal.str s) == "-") = true) := by
      simp [pyToStr, hne]
    constructor
    · rw [LMSPlayer.get_synced_players, hp, Res.bind_ok_pair]
      simp only [if_neg hcond]
      rfl
    · rw [LMSPlayer.get_synced_players, hp, Res.bind_ok_pair]
      simp only [if_neg hcond]
      rfl

/-- Transport for the sync-group query: `sync ?` answers `"bb,cc"`, and the
refresh queries of freshly constructed members answer fixed name, model and
ip values. -/
def c7SyncSrv : Srv := fun r =>
  if r.params = ["sync", "?"] then Except.ok [("_sync", PyVal.str "bb,cc")]
  else if r.params = ["name", "?"] then Except.ok [("_value", PyVal.str "N")]
  else if r.params = ["player", "model", "?"] then Except.ok [("_model", PyVal.str "M")]
  else Except.ok [("_ip", PyVal.str "IP")]

/-- Transport for the sync-group query answering the lone-player marker. -/
def c7DashSrv : Srv := fun _ => Except.ok [("_sync", PyVal.str "-")]

/-- Claim C7, witness: a `"-"` value yields the empty list; the value
`"bb,cc"` yields the two bare references in refs-only mode, and two fully
constructed players in instance mode, each construction adding its three
refresh requests to the trace. -/
theorem c7_synced_players_witness :
    LMSPlayer.get_synced_players c7DashSrv "aa" true
      = (Except.ok [], [selfReq "aa" "sync ?"]) ∧
    LMSPlayer.get_synced_players c7SyncSrv "aa" true
      = (Except.ok [PyVal.str "bb", PyVal.str "cc"], [selfReq "aa" "sync ?"]) ∧
    LMSPlayer.get_synced_players c7SyncSrv "aa" false
      = (Except.ok
           [PyVal.player "bb" (PyVal.str "N") (PyVal.str "M") (PyVal.str "IP"),
            PyVal.player "cc" (PyVal.str "N") (PyVal.str "M") (PyVal.str "IP")],
         [selfReq "aa" "sync ?",
          selfReq "bb" "name ?", selfReq "bb" "player model ?", selfReq "bb" "player ip ?",
          selfReq "cc" "name ?", selfReq "cc" "player model ?", selfReq "cc" "player ip ?"]) := by
  have hdash := c7_synced_players c7DashSrv "aa" [("_sync", PyVal.str "-")] rfl
  have hfull := c7_synced_players c7SyncSrv "aa" [("_sync", PyVal.str "bb,cc")] rfl
  have h2 := hfull.2 "bb,cc" rfl (by decide)
  exact ⟨hdash.1 rfl true, h2.1, h2.2⟩

/-- Claim C8: whenever the duration and elapsed-time reads succeed,
`percentage_elapsed` returns `(elapsed / duration) * upper`, except that a
zero duration yields `0.0` (the `ZeroDivisionError` is caught); in either
case no exception escapes. -/
theorem c8_percentage_guard (srv : Srv) (ref : String) (upper d e : ℚ)
    (t1 t2 : List Request)
    (hd : LMSPlayer.track_duration srv ref = (Except.ok d, t1))
    (he : LMSPlayer.time_elapsed srv ref = (Except.ok e, t2)) :
    LMSPlayer.percentage_elapsed srv ref upper
      = (Except.ok (if d = 0 then 0 else e / d * upper), t1 ++ t2) := by
  have hted : LMSPlayer.track_elapsed_and_duration srv ref
      = (Except.ok (e, d), t1 ++ t2) := by
    simp only [LMSPlayer.track_elapsed_and_duration, hd, he, Res.bind_ok_pair, Res.ok,
      List.append_nil]
  rw [LMSPlayer.percentage_elapsed, hted, Res.bind_ok_pair]
  by_cases h0 : d = 0
  · simp [h0, Res.ok]
  · simp [h0, Res.ok]

/-- Transport reporting a zero duration and a positive elapsed time. -/
def c8ZeroSrv : Srv := fun r =>
  if r.params = ["duration", "?"] then Except.ok [("_duration", PyVal.float 0)]
  else Except.ok [("_time", PyVal.float 7)]

/-- Claim C8, witness: with duration `0` and elapsed `7`,
`percentage_elapsed` returns `0.0` without raising. -/
theorem c8_percentage_witness :
    LMSPlayer.percentage_elapsed c8ZeroSrv "aa" 100
      = (Except.ok 0, [selfReq "aa" "duration ?", selfReq "aa" "time ?"]) := by
  have h := c8_percentage_guard c8ZeroSrv "aa" 100 0 7
    [selfReq "aa" "duration ?"] [selfReq "aa" "time ?"] rfl rfl
  simpa using h

/-- Claim C9: whenever the duration and elapsed-time reads succeed,
`time_remaining` equals duration minus elapsed, with no clamping: the result
is negative exactly when elapsed exceeds duration. -/
theorem c9_remaining_identity (srv : Srv) (ref : String) (d e : ℚ)
    (t1 t2 : List Request)
    (hd : LMSPlayer.track_duration srv ref = (Except.ok d, t1))
    (he : LMSPlayer.time_elapsed srv ref = (Except.ok e, t2)) :
    LMSPlayer.time_remaining srv ref = (Except.ok (d - e), t1 ++ t2) ∧
    (d < e → d - e < 0) := by
  constructor
  · simp only [LMSPlayer.time_remaining, hd, he, Res.bind_ok_pair, Res.ok,
      List.append_nil]
  · intro hgt
    linarith

/-- Transport reporting duration `4` and elapsed time `10`. -/
def c9OverrunSrv : Srv := fun r =>
  if r.params = ["duration", "?"] then Except.ok [("_duration", PyVal.float 4)]
  else Except.ok [("_time", PyVal.float 10)]

/-- Claim C9, witness: with duration `4` and elapsed `10`, `time_remaining`
returns the negative value `4 - 10`. -/
theorem c9_remaining_witness :
    LMSPlayer.time_remaining c9OverrunSrv "aa"
      = (Except.ok ((4 : ℚ) - 10), [selfReq "aa" "duration ?", selfReq "aa" "time ?"]) ∧
    ((4 : ℚ) - 10 < 0) := by
  have h := c9_remaining_identity c9OverrunSrv "aa" 4 10
    [selfReq "aa" "duration ?"] [selfReq "aa" "time ?"] rfl rfl
  refine ⟨?_, h.2 (by norm_num)⟩
  simpa using h.1
